import Mathlib

/-!
Verification of the fetch pipeline of `mcp-fetch`.

The definitions below are a shallow embedding of
`src/mcp_server_fetch/http_server.py`: the `fetch` tool (URL validation,
fetch step, pagination, continuation hint), the bearer-token ASGI
middleware, and `get_app`.  The network fetch step (`fetch_url` from the
stdio server module) is abstracted as an oracle parameter: a function from
the arguments `fetch` passes it to its outcome (success with content and
advisory string, or an exception message).
-/

namespace McpFetch

/-- Python slice semantics `s[a : b]` for non-negative bounds, as used at
`content[start_index : start_index + max_length]`: drop `a` characters,
then take `b - a`. -/
def pySlice (s : String) (a b : Nat) : String :=
  String.mk ((s.data.drop a).take (b - a))

/-- Outcome of the awaited `fetch_url` call: either `(content, prefix)` on
success, or the message of the raised exception. -/
inductive FetchOutcome where
  | success (content : String) (pfx : String)
  | failure (message : String)
deriving DecidableEq

/-- The oracle abstracting `fetch_url(url, user_agent, force_raw, proxy_url)`:
for a fixed behaviour of the fetch step, the outcome is a function of the
arguments the tool passes it. -/
def FetchOracle : Type :=
  String → Option String → Bool → Option String → FetchOutcome

/-- Process-wide configuration: the module globals `USER_AGENT_AUTONOMOUS`,
`USER_AGENT_MANUAL`, `PROXY_URL` (all initialised to `None`). -/
structure ServerConfig where
  userAgentAutonomous : Option String
  userAgentManual : Option String
  proxyUrl : Option String
deriving DecidableEq

/-- Default autonomous user-agent string from `configure_server`. -/
def DEFAULT_USER_AGENT_AUTONOMOUS : String :=
  "ModelContextProtocol/1.0 (Autonomous; +https://github.com/modelcontextprotocol/servers)"

/-- Default manual user-agent string from `configure_server`. -/
def DEFAULT_USER_AGENT_MANUAL : String :=
  "ModelContextProtocol/1.0 (User-Specified; +https://github.com/modelcontextprotocol/servers)"

/-- Python truthiness-based fallback `x or d` for an optional string:
`None` and the empty string select the default. -/
def pyOr (x : Option String) (d : String) : String :=
  match x with
  | none => d
  | some s => if s = "" then d else s

/-- The `configure_server(custom_user_agent, proxy_url)` assignment to the
module globals. -/
def configure_server (custom_user_agent : Option String)
    (proxy_url : Option String) : ServerConfig :=
  { userAgentAutonomous := some (pyOr custom_user_agent DEFAULT_USER_AGENT_AUTONOMOUS)
    userAgentManual := some (pyOr custom_user_agent DEFAULT_USER_AGENT_MANUAL)
    proxyUrl := proxy_url }

/-- The end-of-content error string returned by the tool. -/
def errNoMore : String := "<error>No more content available.</error>"

/-- The continuation instruction appended to a truncated slice, naming the
next `start_index` (the f-string at line 114 of `http_server.py`). -/
def continuationInstr (next_start : Nat) : String :=
  "\n\n<error>Content truncated. Call the fetch tool with a start_index of "
    ++ toString next_start ++ " to get more content.</error>"

/-- The `fetch` tool body (lines 89-116 of `http_server.py`), with the
awaited `fetch_url` call abstracted by `oracle`.  All indices are the
non-negative integers the tool schema accepts. -/
def fetch (cfg : ServerConfig) (oracle : FetchOracle) (url : String)
    (max_length : Nat) (start_index : Nat) (raw : Bool) : String :=
  if url = "" then "<error>URL is required</error>"
  else
    match oracle url cfg.userAgentAutonomous raw cfg.proxyUrl with
    | FetchOutcome.failure e =>
        "<error>Failed to fetch " ++ url ++ ": " ++ e ++ "</error>"
    | FetchOutcome.success content pfx =>
        let original_length := content.length
        if start_index ≥ original_length then errNoMore
        else
          let truncated_content := pySlice content start_index (start_index + max_length)
          if truncated_content = "" then errNoMore
          else
            let actual_content_length := truncated_content.length
            let remaining_content : Int :=
              (original_length : Int) - ((start_index + actual_content_length : Nat) : Int)
            let truncated_content :=
              if actual_content_length = max_length ∧ remaining_content > 0 then
                truncated_content
                  ++ continuationInstr (start_index + actual_content_length)
              else truncated_content
            pfx ++ "Contents of " ++ url ++ ":\n" ++ truncated_content

/-- State-passing form of the tool: `fetch` reads the module globals and
performs no assignment to them, so the configuration is returned unchanged. -/
def fetchSt (oracle : FetchOracle) (url : String) (max_length : Nat)
    (start_index : Nat) (raw : Bool) (cfg : ServerConfig) :
    String × ServerConfig :=
  (fetch cfg oracle url max_length start_index raw, cfg)

/-- External calls a tool invocation can make: a robots-exclusion policy
check, or the actual URL retrieval with a given user-agent. -/
inductive Step where
  | robotsCheck (url : String) (userAgent : Option String)
  | retrieve (url : String) (userAgent : Option String)
deriving DecidableEq

/-- Trace of external calls made by one invocation of `fetch`: after the
emptiness check the body directly awaits `fetch_url` with
`USER_AGENT_AUTONOMOUS` (line 94), with no robots-exclusion step anywhere
in `http_server.py`; the retrieval is attempted exactly once whether it
succeeds or raises. -/
def fetchTrace (cfg : ServerConfig) (url : String) : List Step :=
  if url = "" then [] else [Step.retrieve url cfg.userAgentAutonomous]

/-- Whether a trace contains any robots-exclusion check. -/
def hasRobotsCheck (t : List Step) : Bool :=
  t.any fun s =>
    match s with
    | Step.robotsCheck _ _ => true
    | Step.retrieve _ _ => false

/-- Number of retrieval attempts in a trace. -/
def countRetrieves (t : List Step) : Nat :=
  (t.filter fun s =>
    match s with
    | Step.robotsCheck _ _ => false
    | Step.retrieve _ _ => true).length

/-- Python `dict(pairs).get(key, dflt)`: the value of the last pair with
the given key, or the default. -/
def dictGet (pairs : List (String × String)) (key dflt : String) : String :=
  (pairs.foldl (fun acc p => if p.1 = key then some p.2 else acc) none).getD dflt

/-- ASGI events observable from the middleware: the two `send` calls of the
401 path, or the invocation of the wrapped application. -/
inductive AsgiEvent where
  | responseStart (status : Nat) (headers : List (String × String))
  | responseBody (body : String)
  | appCall
deriving DecidableEq

/-- Exact bytes of the 401 response body sent by the middleware. -/
def unauthorizedBody : String :=
  "\x7b\"error\": \"Unauthorized\", \"message\": \"Invalid or missing Bearer token\"\x7d"

/-- The `auth_middleware` closure of `create_auth_middleware` (lines
130-159): for an HTTP scope, compare the `authorization` header with
`Bearer <token>`; on mismatch send the 401 response and return without
calling the wrapped app, otherwise call it. -/
def auth_middleware (token : String) (scopeType : String)
    (headers : List (String × String)) : List AsgiEvent :=
  if scopeType = "http" then
    let auth_header := dictGet headers "authorization" ""
    let expected_auth := "Bearer " ++ token
    if auth_header ≠ expected_auth then
      [AsgiEvent.responseStart 401
        [("content-type", "application/json"), ("www-authenticate", "Bearer")],
       AsgiEvent.responseBody unauthorizedBody]
    else [AsgiEvent.appCall]
  else [AsgiEvent.appCall]

/-- The ASGI application returned by `get_app`: the bare streamable-HTTP
app or that app wrapped in the auth middleware. -/
inductive App where
  | base
  | withAuth (token : String)
deriving DecidableEq

/-- The `get_app(auth_token)` selection (lines 164-179): the middleware is
installed only when `auth_token` is truthy, so `None` and the empty string
both leave the app unwrapped. -/
def get_app (auth_token : Option String) : App :=
  match auth_token with
  | none => App.base
  | some t => if t = "" then App.base else App.withAuth t

/-- Events an application produces for one request: the bare app is
invoked directly; the wrapped app runs the middleware. -/
def appHandle (a : App) (scopeType : String)
    (headers : List (String × String)) : List AsgiEvent :=
  match a with
  | App.base => [AsgiEvent.appCall]
  | App.withAuth t => auth_middleware t scopeType headers

/-- Length of the Python slice `s[a : a+m]` for non-negative bounds. -/
theorem length_pySlice (s : String) (a m : Nat) :
    (pySlice s a (a + m)).length = min m (s.length - a) := by
  rw [pySlice, String.length_mk, List.length_take, List.length_drop]
  have h : s.length = s.data.length := rfl
  omega

/-- A slice starting inside the content with a positive window is non-empty. -/
theorem pySlice_ne_empty (s : String) (a m : Nat) (ha : a < s.length) (hm : 0 < m) :
    pySlice s a (a + m) ≠ "" := by
  intro h
  have h1 := congrArg String.length h
  rw [length_pySlice, String.length_empty] at h1
  omega

/-- Evaluation of `fetch` on the success path with an in-range start index. -/
theorem fetch_success_eq (cfg : ServerConfig) (oracle : FetchOracle)
    (url : String) (m s : Nat) (raw : Bool) (content pfx : String)
    (hurl : url ≠ "")
    (hor : oracle url cfg.userAgentAutonomous raw cfg.proxyUrl
      = FetchOutcome.success content pfx)
    (hs : s < content.length)
    (hne : pySlice content s (s + m) ≠ "") :
    fetch cfg oracle url m s raw =
      pfx ++ "Contents of " ++ url ++ ":\n" ++
        (if (pySlice content s (s + m)).length = m ∧
            ((content.length : Int)
              - ((s + (pySlice content s (s + m)).length : Nat) : Int)) > 0
         then pySlice content s (s + m)
           ++ continuationInstr (s + (pySlice content s (s + m)).length)
         else pySlice content s (s + m)) := by
  rw [fetch, if_neg hurl, hor]
  simp only [ge_iff_le]
  rw [if_neg (Nat.not_le.mpr hs), if_neg hne]

/-- Appending the continuation instruction changes the string. -/
theorem continuationInstr_append_ne (b : String) (n : Nat) :
    b ++ continuationInstr n ≠ b := by
  intro h
  have h1 := congrArg String.length h
  rw [String.length_append] at h1
  have h2 : (continuationInstr n).length = 0 := by omega
  rw [continuationInstr, String.length_append, String.length_append] at h2
  have h3 : ("\n\n<error>Content truncated. Call the fetch tool with a start_index of " : String).length = 70 := by decide
  omega

/-- The end-of-content error string is not of the `Contents of` envelope form
(the error text contains no capital `C`). -/
theorem errNoMore_ne_contents (a b : String) :
    errNoMore ≠ a ++ "Contents of " ++ b := by
  intro h
  have hC : 'C' ∈ (a ++ "Contents of " ++ b).data := by
    simp only [String.data_append, List.mem_append]
    exact Or.inl (Or.inr (by decide))
  rw [← h] at hC
  exact absurd hC (by decide)

/-- A formatted content envelope is never the end-of-content error string. -/
theorem envelope_ne_errNoMore (p u t : String) :
    p ++ "Contents of " ++ u ++ ":\n" ++ t ≠ errNoMore := by
  intro h
  have hC : 'C' ∈ (p ++ "Contents of " ++ u ++ ":\n" ++ t).data := by
    simp only [String.data_append, List.mem_append]
    exact Or.inl (Or.inl (Or.inl (Or.inr (by decide))))
  rw [h] at hC
  exact absurd hC (by decide)

/-- C1: for accepted arguments with an in-range start index, the output of
`fetch` is the envelope followed by the continuation instruction (naming next
start_index = start_index + length of the returned slice) if and only if the
returned slice has length `max_length` and `start_index + max_length` is less
than the content length; in particular a slice that exactly reaches
end-of-content gets no continuation instruction even when its length equals
`max_length`. -/
theorem fetch_continuation_iff (cfg : ServerConfig) (oracle : FetchOracle)
    (url : String) (m s : Nat) (raw : Bool) (content pfx : String)
    (hurl : url ≠ "")
    (hor : oracle url cfg.userAgentAutonomous raw cfg.proxyUrl
      = FetchOutcome.success content pfx)
    (hs : s < content.length) (hm : 0 < m) :
    ((fetch cfg oracle url m s raw =
        pfx ++ "Contents of " ++ url ++ ":\n" ++ pySlice content s (s + m)
          ++ continuationInstr (s + (pySlice content s (s + m)).length)) ↔
      ((pySlice content s (s + m)).length = m ∧ s + m < content.length)) ∧
    (((pySlice content s (s + m)).length = m ∧ s + m = content.length) →
      fetch cfg oracle url m s raw =
        pfx ++ "Contents of " ++ url ++ ":\n" ++ pySlice content s (s + m)) := by
  have hne := pySlice_ne_empty content s m hs hm
  have heq := fetch_success_eq cfg oracle url m s raw content pfx hurl hor hs hne
  have hcond_iff : ((pySlice content s (s + m)).length = m ∧
      ((content.length : Int)
        - ((s + (pySlice content s (s + m)).length : Nat) : Int)) > 0) ↔
      ((pySlice content s (s + m)).length = m ∧ s + m < content.length) := by
    constructor <;> rintro ⟨h1, h2⟩ <;> exact ⟨h1, by omega⟩
  by_cases hc : (pySlice content s (s + m)).length = m ∧ s + m < content.length
  · obtain ⟨hc1, hc2⟩ := hc
    rw [if_pos (hcond_iff.mpr ⟨hc1, hc2⟩)] at heq
    refine ⟨⟨fun _ => ⟨hc1, hc2⟩, fun _ => ?_⟩, fun h2 => ?_⟩
    · rw [heq]
      exact (String.append_assoc _ _ _).symm
    · exact absurd h2.2 (by omega)
  · rw [if_neg (fun h => hc (hcond_iff.mp h))] at heq
    refine ⟨⟨fun hfe => ?_, fun h => absurd h hc⟩, fun _ => heq⟩
    rw [heq] at hfe
    exact absurd hfe.symm (continuationInstr_append_ne _ _)

/-- C2: for an in-range start index and positive `max_length`, the slice
returned by `fetch` is exactly `content[start_index : start_index+max_length]`
and its length is `min max_length (content.length - start_index)`. -/
theorem fetch_slice_length (cfg : ServerConfig) (oracle : FetchOracle)
    (url : String) (m s : Nat) (raw : Bool) (content pfx : String)
    (hurl : url ≠ "")
    (hor : oracle url cfg.userAgentAutonomous raw cfg.proxyUrl
      = FetchOutcome.success content pfx)
    (hs : s < content.length) (hm : 0 < m) :
    (pySlice content s (s + m)).length = min m (content.length - s) ∧
    (fetch cfg oracle url m s raw =
        pfx ++ "Contents of " ++ url ++ ":\n" ++ pySlice content s (s + m) ∨
     fetch cfg oracle url m s raw =
        pfx ++ "Contents of " ++ url ++ ":\n" ++ pySlice content s (s + m)
          ++ continuationInstr (s + (pySlice content s (s + m)).length)) := by
  refine ⟨length_pySlice content s m, ?_⟩
  have hne := pySlice_ne_empty content s m hs hm
  have heq := fetch_success_eq cfg oracle url m s raw content pfx hurl hor hs hne
  by_cases hc : (pySlice content s (s + m)).length = m ∧
      ((content.length : Int)
        - ((s + (pySlice content s (s + m)).length : Nat) : Int)) > 0
  · right
    rw [heq, if_pos hc]
    exact (String.append_assoc _ _ _).symm
  · left
    rw [heq, if_neg hc]

/-- C3: for non-empty content and a start index at or beyond the content
length, `fetch` returns the end-of-content error string (and, being a total
function, never raises). -/
theorem fetch_out_of_range_error (cfg : ServerConfig) (oracle : FetchOracle)
    (url : String) (m s : Nat) (raw : Bool) (content pfx : String)
    (hurl : url ≠ "")
    (hor : oracle url cfg.userAgentAutonomous raw cfg.proxyUrl
      = FetchOutcome.success content pfx)
    (hcne : content ≠ "") (hsge : content.length ≤ s) :
    fetch cfg oracle url m s raw = errNoMore := by
  rw [fetch, if_neg hurl, hor]
  simp only [ge_iff_le]
  rw [if_pos hsge]

/-- C4 (amended): in the HTTP-transport server every fetch uses the
autonomous user-agent but is NOT subjected to robots-exclusion evaluation:
the trace of external calls of a tool invocation with a non-empty URL is
exactly one retrieval with `USER_AGENT_AUTONOMOUS` and contains no
robots-policy check. -/
theorem fetch_no_robots_check (cfg : ServerConfig) (url : String)
    (h : url ≠ "") :
    fetchTrace cfg url = [Step.retrieve url cfg.userAgentAutonomous] ∧
    hasRobotsCheck (fetchTrace cfg url) = false := by
  refine ⟨?_, ?_⟩ <;> rw [fetchTrace, if_neg h] <;> rfl

/-- C4 counterexample: a concrete autonomous fetch whose call trace performs
the URL retrieval without any preceding robots-exclusion evaluation,
refuting the claim that every autonomous fetch is first subjected to the
robots gate. -/
theorem fetch_robots_gate_counterexample :
    Step.retrieve "http://example.com/"
        (configure_server none none).userAgentAutonomous
      ∈ fetchTrace (configure_server none none) "http://example.com/" ∧
    hasRobotsCheck
      (fetchTrace (configure_server none none) "http://example.com/") = false := by
  constructor
  · rw [fetchTrace, if_neg (by decide)]
    exact List.mem_singleton.mpr rfl
  · rw [fetchTrace, if_neg (by decide)]
    rfl

/-- C5: when the fetch step raises, `fetch` returns
`<error>Failed to fetch {url}: {cause}</error>` with the exception message as
cause, the exception does not propagate, and exactly one retrieval is
attempted (no retry). -/
theorem fetch_failure_envelope (cfg : ServerConfig) (oracle : FetchOracle)
    (url : String) (m s : Nat) (raw : Bool) (e : String)
    (hurl : url ≠ "")
    (hor : oracle url cfg.userAgentAutonomous raw cfg.proxyUrl
      = FetchOutcome.failure e) :
    fetch cfg oracle url m s raw =
      "<error>Failed to fetch " ++ url ++ ": " ++ e ++ "</error>" ∧
    fetchTrace cfg url = [Step.retrieve url cfg.userAgentAutonomous] ∧
    countRetrieves (fetchTrace cfg url) = 1 := by
  refine ⟨?_, ?_, ?_⟩
  · rw [fetch, if_neg hurl, hor]
  · rw [fetchTrace, if_neg hurl]
  · rw [fetchTrace, if_neg hurl]
    rfl

/-- C7: an empty `url` argument makes `fetch` immediately return
`<error>URL is required</error>` and the invocation performs no network
retrieval at all. -/
theorem fetch_empty_url (cfg : ServerConfig) (oracle : FetchOracle)
    (m s : Nat) (raw : Bool) :
    fetch cfg oracle "" m s raw = "<error>URL is required</error>" ∧
    fetchTrace cfg "" = [] := by
  exact ⟨by rw [fetch, if_pos rfl], by rw [fetchTrace, if_pos rfl]⟩

/-- C8: with a fixed configuration and a fixed behaviour of the fetch step,
two successive invocations of the tool with identical arguments return
identical output strings, and neither invocation mutates the process-wide
configuration. -/
theorem fetch_deterministic_config_preserving (cfg : ServerConfig)
    (oracle : FetchOracle) (url : String) (m s : Nat) (raw : Bool) :
    (fetchSt oracle url m s raw cfg).1
      = (fetchSt oracle url m s raw (fetchSt oracle url m s raw cfg).2).1 ∧
    (fetchSt oracle url m s raw cfg).2 = cfg ∧
    (fetchSt oracle url m s raw (fetchSt oracle url m s raw cfg).2).2 = cfg :=
  ⟨rfl, rfl, rfl⟩

/-- C9: when `fetch` emits a continuation instruction it names exactly
`start_index + max_length`, which is strictly larger than `start_index` and
strictly below the content length; the follow-up call at that index returns a
non-empty slice inside a content envelope (never the end-of-content error),
and the remaining content strictly decreases, so repeated continuation calls
terminate after finitely many steps. -/
theorem fetch_continuation_progress (cfg : ServerConfig) (oracle : FetchOracle)
    (url : String) (m s : Nat) (raw : Bool) (content pfx : String)
    (hurl : url ≠ "")
    (hor : oracle url cfg.userAgentAutonomous raw cfg.proxyUrl
      = FetchOutcome.success content pfx)
    (hm : 0 < m) (hs : s < content.length) (hnext : s + m < content.length) :
    fetch cfg oracle url m s raw =
      pfx ++ "Contents of " ++ url ++ ":\n" ++ pySlice content s (s + m)
        ++ continuationInstr (s + m) ∧
    s < s + m ∧
    s + m < content.length ∧
    pySlice content (s + m) (s + m + m) ≠ "" ∧
    fetch cfg oracle url m (s + m) raw ≠ errNoMore ∧
    (fetch cfg oracle url m (s + m) raw =
        pfx ++ "Contents of " ++ url ++ ":\n" ++ pySlice content (s + m) (s + m + m) ∨
     fetch cfg oracle url m (s + m) raw =
        pfx ++ "Contents of " ++ url ++ ":\n" ++ pySlice content (s + m) (s + m + m)
          ++ continuationInstr (s + m + (pySlice content (s + m) (s + m + m)).length)) ∧
    content.length - (s + m) < content.length - s := by
  have hL := length_pySlice content s m
  have hLm : (pySlice content s (s + m)).length = m := by omega
  have hne := pySlice_ne_empty content s m hs hm
  have heq := fetch_success_eq cfg oracle url m s raw content pfx hurl hor hs hne
  have hne2 := pySlice_ne_empty content (s + m) m hnext hm
  have heq2 := fetch_success_eq cfg oracle url m (s + m) raw content pfx hurl hor hnext hne2
  refine ⟨?_, by omega, hnext, hne2, ?_, ?_, by omega⟩
  · rw [heq, if_pos ⟨hLm, by omega⟩, hLm]
    exact (String.append_assoc _ _ _).symm
  · rw [heq2]
    split
    · exact envelope_ne_errNoMore _ _ _
    · exact envelope_ne_errNoMore _ _ _
  · by_cases hc2 : (pySlice content (s + m) (s + m + m)).length = m ∧
        ((content.length : Int)
          - ((s + m + (pySlice content (s + m) (s + m + m)).length : Nat) : Int)) > 0
    · right
      rw [heq2, if_pos hc2]
      exact (String.append_assoc _ _ _).symm
    · left
      rw [heq2, if_neg hc2]

/-- C10: when the fetched content is the empty string, `fetch` returns the
end-of-content error for every accepted start index, and never returns a
`Contents of {url}` envelope. -/
theorem fetch_empty_content_error (cfg : ServerConfig) (oracle : FetchOracle)
    (url : String) (m s : Nat) (raw : Bool) (pfx : String)
    (hurl : url ≠ "")
    (hor : oracle url cfg.userAgentAutonomous raw cfg.proxyUrl
      = FetchOutcome.success "" pfx) :
    fetch cfg oracle url m s raw = errNoMore ∧
    ∀ a b : String, fetch cfg oracle url m s raw ≠ a ++ "Contents of " ++ b := by
  have h0 : fetch cfg oracle url m s raw = errNoMore := by
    rw [fetch, if_neg hurl, hor]
    simp only [ge_iff_le]
    rw [if_pos (by rw [String.length_empty]; exact Nat.zero_le s)]
  exact ⟨h0, fun a b h => errNoMore_ne_contents a b (h0.symm.trans h)⟩

/-- C6: with a configured (truthy) token, an HTTP request whose
`authorization` header differs from `Bearer <token>` receives exactly the
401 response with `content-type: application/json`,
`www-authenticate: Bearer` and the documented JSON body, and the wrapped
application is not invoked; a request with the exact header proceeds to the
application; a missing header always mismatches; with no token configured the
application is unwrapped and every request proceeds. -/
theorem auth_gate_behavior (t : String) (headers headers2 : List (String × String))
    (ht : t ≠ "") :
    (dictGet headers "authorization" "" ≠ "Bearer " ++ t →
      appHandle (get_app (some t)) "http" headers =
        [AsgiEvent.responseStart 401
          [("content-type", "application/json"), ("www-authenticate", "Bearer")],
         AsgiEvent.responseBody unauthorizedBody] ∧
      AsgiEvent.appCall ∉ appHandle (get_app (some t)) "http" headers) ∧
    (dictGet headers "authorization" "" = "Bearer " ++ t →
      appHandle (get_app (some t)) "http" headers = [AsgiEvent.appCall]) ∧
    dictGet [] "authorization" "" ≠ "Bearer " ++ t ∧
    appHandle (get_app none) "http" headers2 = [AsgiEvent.appCall] := by
  have happ : get_app (some t) = App.withAuth t := by
    rw [get_app, if_neg ht]
  refine ⟨fun hmis => ?_, fun hok => ?_, fun habs => ?_, rfl⟩
  · rw [happ]
    show auth_middleware t "http" headers = _ ∧ _
    constructor
    · simp [auth_middleware, hmis]
    · show AsgiEvent.appCall ∉ auth_middleware t "http" headers
      simp [auth_middleware, hmis]
  · rw [happ]
    show auth_middleware t "http" headers = _
    simp [auth_middleware, hok]
  · have h0 : dictGet [] "authorization" "" = "" := rfl
    rw [h0] at habs
    have h1 := congrArg String.length habs
    rw [String.length_append, String.length_empty] at h1
    have h2 : ("Bearer " : String).length = 7 := by decide
    omega

/-- Witness for C1 at content `abcdefghij`, `start_index = 2`, `max_length = 4`. -/
theorem fetch_continuation_iff_witness :
    ("http://x" : String) ≠ "" ∧
    ((fun _ _ _ _ => FetchOutcome.success "abcdefghij" "P:" : FetchOracle)
        "http://x" (configure_server none none).userAgentAutonomous false
        (configure_server none none).proxyUrl
      = FetchOutcome.success "abcdefghij" "P:") ∧
    2 < ("abcdefghij" : String).length ∧ 0 < 4 ∧
    (((fetch (configure_server none none)
          (fun _ _ _ _ => FetchOutcome.success "abcdefghij" "P:") "http://x" 4 2 false =
        "P:" ++ "Contents of " ++ "http://x" ++ ":\n" ++ pySlice "abcdefghij" 2 (2 + 4)
          ++ continuationInstr (2 + (pySlice "abcdefghij" 2 (2 + 4)).length)) ↔
      ((pySlice "abcdefghij" 2 (2 + 4)).length = 4 ∧
        2 + 4 < ("abcdefghij" : String).length)) ∧
    (((pySlice "abcdefghij" 2 (2 + 4)).length = 4 ∧
        2 + 4 = ("abcdefghij" : String).length) →
      fetch (configure_server none none)
          (fun _ _ _ _ => FetchOutcome.success "abcdefghij" "P:") "http://x" 4 2 false =
        "P:" ++ "Contents of " ++ "http://x" ++ ":\n" ++ pySlice "abcdefghij" 2 (2 + 4))) :=
  ⟨by decide, rfl, by decide, by decide,
   fetch_continuation_iff (configure_server none none)
     (fun _ _ _ _ => FetchOutcome.success "abcdefghij" "P:") "http://x" 4 2 false
     "abcdefghij" "P:" (by decide) rfl (by decide) (by decide)⟩

/-- Witness for C2 at content `abcdefghij`, `start_index = 2`, `max_length = 4`. -/
theorem fetch_slice_length_witness :
    ("http://x" : String) ≠ "" ∧
    ((fun _ _ _ _ => FetchOutcome.success "abcdefghij" "P:" : FetchOracle)
        "http://x" (configure_server none none).userAgentAutonomous false
        (configure_server none none).proxyUrl
      = FetchOutcome.success "abcdefghij" "P:") ∧
    2 < ("abcdefghij" : String).length ∧ 0 < 4 ∧
    ((pySlice "abcdefghij" 2 (2 + 4)).length
        = min 4 (("abcdefghij" : String).length - 2) ∧
    (fetch (configure_server none none)
        (fun _ _ _ _ => FetchOutcome.success "abcdefghij" "P:") "http://x" 4 2 false =
        "P:" ++ "Contents of " ++ "http://x" ++ ":\n" ++ pySlice "abcdefghij" 2 (2 + 4) ∨
     fetch (configure_server none none)
        (fun _ _ _ _ => FetchOutcome.success "abcdefghij" "P:") "http://x" 4 2 false =
        "P:" ++ "Contents of " ++ "http://x" ++ ":\n" ++ pySlice "abcdefghij" 2 (2 + 4)
          ++ continuationInstr (2 + (pySlice "abcdefghij" 2 (2 + 4)).length))) :=
  ⟨by decide, rfl, by decide, by decide,
   fetch_slice_length (configure_server none none)
     (fun _ _ _ _ => FetchOutcome.success "abcdefghij" "P:") "http://x" 4 2 false
     "abcdefghij" "P:" (by decide) rfl (by decide) (by decide)⟩

/-- Witness for C3 at content `abcdefghij`, `start_index = 12`. -/
theorem fetch_out_of_range_error_witness :
    ("http://x" : String) ≠ "" ∧
    ((fun _ _ _ _ => FetchOutcome.success "abcdefghij" "P:" : FetchOracle)
        "http://x" (configure_server none none).userAgentAutonomous false
        (configure_server none none).proxyUrl
      = FetchOutcome.success "abcdefghij" "P:") ∧
    ("abcdefghij" : String) ≠ "" ∧
    ("abcdefghij" : String).length ≤ 12 ∧
    fetch (configure_server none none)
        (fun _ _ _ _ => FetchOutcome.success "abcdefghij" "P:") "http://x" 4 12 false
      = errNoMore :=
  ⟨by decide, rfl, by decide, by decide,
   fetch_out_of_range_error (configure_server none none)
     (fun _ _ _ _ => FetchOutcome.success "abcdefghij" "P:") "http://x" 4 12 false
     "abcdefghij" "P:" (by decide) rfl (by decide) (by decide)⟩

/-- Witness for the amended C4 at a concrete URL and default configuration. -/
theorem fetch_no_robots_check_witness :
    ("http://example.org/" : String) ≠ "" ∧
    (fetchTrace (configure_server none none) "http://example.org/"
        = [Step.retrieve "http://example.org/"
            (configure_server none none).userAgentAutonomous] ∧
     hasRobotsCheck
        (fetchTrace (configure_server none none) "http://example.org/") = false) :=
  ⟨by decide,
   fetch_no_robots_check (configure_server none none) "http://example.org/" (by decide)⟩

/-- Witness for C5 with a fetch step that raises with message `boom`. -/
theorem fetch_failure_envelope_witness :
    ("http://x" : String) ≠ "" ∧
    ((fun _ _ _ _ => FetchOutcome.failure "boom" : FetchOracle)
        "http://x" (configure_server none none).userAgentAutonomous false
        (configure_server none none).proxyUrl
      = FetchOutcome.failure "boom") ∧
    (fetch (configure_server none none)
        (fun _ _ _ _ => FetchOutcome.failure "boom") "http://x" 4 0 false =
        "<error>Failed to fetch " ++ "http://x" ++ ": " ++ "boom" ++ "</error>" ∧
     fetchTrace (configure_server none none) "http://x"
        = [Step.retrieve "http://x" (configure_server none none).userAgentAutonomous] ∧
     countRetrieves (fetchTrace (configure_server none none) "http://x") = 1) :=
  ⟨by decide, rfl,
   fetch_failure_envelope (configure_server none none)
     (fun _ _ _ _ => FetchOutcome.failure "boom") "http://x" 4 0 false "boom"
     (by decide) rfl⟩

/-- Witness for C9 at content `abcdefghij`, `start_index = 2`, `max_length = 4`. -/
theorem fetch_continuation_progress_witness :
    ("http://x" : String) ≠ "" ∧
    ((fun _ _ _ _ => FetchOutcome.success "abcdefghij" "P:" : FetchOracle)
        "http://x" (configure_server none none).userAgentAutonomous false
        (configure_server none none).proxyUrl
      = FetchOutcome.success "abcdefghij" "P:") ∧
    0 < 4 ∧ 2 < ("abcdefghij" : String).length ∧
    2 + 4 < ("abcdefghij" : String).length ∧
    (fetch (configure_server none none)
        (fun _ _ _ _ => FetchOutcome.success "abcdefghij" "P:") "http://x" 4 2 false =
      "P:" ++ "Contents of " ++ "http://x" ++ ":\n" ++ pySlice "abcdefghij" 2 (2 + 4)
        ++ continuationInstr (2 + 4) ∧
    2 < 2 + 4 ∧
    2 + 4 < ("abcdefghij" : String).length ∧
    pySlice "abcdefghij" (2 + 4) (2 + 4 + 4) ≠ "" ∧
    fetch (configure_server none none)
        (fun _ _ _ _ => FetchOutcome.success "abcdefghij" "P:") "http://x" 4 (2 + 4) false
      ≠ errNoMore ∧
    (fetch (configure_server none none)
        (fun _ _ _ _ => FetchOutcome.success "abcdefghij" "P:") "http://x" 4 (2 + 4) false =
        "P:" ++ "Contents of " ++ "http://x" ++ ":\n"
          ++ pySlice "abcdefghij" (2 + 4) (2 + 4 + 4) ∨
     fetch (configure_server none none)
        (fun _ _ _ _ => FetchOutcome.success "abcdefghij" "P:") "http://x" 4 (2 + 4) false =
        "P:" ++ "Contents of " ++ "http://x" ++ ":\n"
          ++ pySlice "abcdefghij" (2 + 4) (2 + 4 + 4)
          ++ continuationInstr (2 + 4 + (pySlice "abcdefghij" (2 + 4) (2 + 4 + 4)).length)) ∧
    ("abcdefghij" : String).length - (2 + 4) < ("abcdefghij" : String).length - 2) :=
  ⟨by decide, rfl, by decide, by decide, by decide,
   fetch_continuation_progress (configure_server none none)
     (fun _ _ _ _ => FetchOutcome.success "abcdefghij" "P:") "http://x" 4 2 false
     "abcdefghij" "P:" (by decide) rfl (by decide) (by decide) (by decide)⟩

/-- Witness for C10 with empty fetched content. -/
theorem fetch_empty_content_error_witness :
    ("http://x" : String) ≠ "" ∧
    ((fun _ _ _ _ => FetchOutcome.success "" "P:" : FetchOracle)
        "http://x" (configure_server none none).userAgentAutonomous false
        (configure_server none none).proxyUrl
      = FetchOutcome.success "" "P:") ∧
    (fetch (configure_server none none)
        (fun _ _ _ _ => FetchOutcome.success "" "P:") "http://x" 5 0 false = errNoMore ∧
     ∀ a b : String,
        fetch (configure_server none none)
          (fun _ _ _ _ => FetchOutcome.success "" "P:") "http://x" 5 0 false
          ≠ a ++ "Contents of " ++ b) :=
  ⟨by decide, rfl,
   fetch_empty_content_error (configure_server none none)
     (fun _ _ _ _ => FetchOutcome.success "" "P:") "http://x" 5 0 false "P:"
     (by decide) rfl⟩

/-- Witness for C6 with token `secret` and a mismatching request header. -/
theorem auth_gate_behavior_witness :
    ("secret" : String) ≠ "" ∧
    ((dictGet [("authorization", "Bearer wrong")] "authorization" ""
        ≠ "Bearer " ++ "secret" →
      appHandle (get_app (some "secret")) "http" [("authorization", "Bearer wrong")] =
        [AsgiEvent.responseStart 401
          [("content-type", "application/json"), ("www-authenticate", "Bearer")],
         AsgiEvent.responseBody unauthorizedBody] ∧
      AsgiEvent.appCall
        ∉ appHandle (get_app (some "secret")) "http" [("authorization", "Bearer wrong")]) ∧
    (dictGet [("authorization", "Bearer wrong")] "authorization" ""
        = "Bearer " ++ "secret" →
      appHandle (get_app (some "secret")) "http" [("authorization", "Bearer wrong")]
        = [AsgiEvent.appCall]) ∧
    dictGet [] "authorization" "" ≠ "Bearer " ++ "secret" ∧
    appHandle (get_app none) "http" [] = [AsgiEvent.appCall]) :=
  ⟨by decide,
   auth_gate_behavior "secret" [("authorization", "Bearer wrong")] [] (by decide)⟩

end McpFetch
